import Mathlib

/-!
# Verification of the web-scraper job pipeline

Shallow embedding of the repository's job-orchestration and extraction
pipeline:

* `src/database/database.ts` — the SQLite-backed content store
  (`createScrapeJob`, `updateScrapeJob`, `getScrapeJob`,
  `saveScrapedContent`);
* `src/scrapers/reddit-scraper.ts` — navigation candidate ladder
  (`navigateToSubreddit`), primary extraction (`extractPosts`) and
  `fallbackExtraction`;
* `src/scrapers/tiktok-scraper.ts` — `navigateToTikTok`,
  `extractTikTokData`;
* `src/workers/scraper-worker.ts` — the per-type job handlers
  (`processQuotesJob`, `processRedditJob`, `processTikTokJob`) and the
  router `processScrapeJob`.

Browser/network effects are abstracted as environment records that fix, for
one job execution, the outcome of each external call (launch, goto,
DOM queries, per-record store writes); the handler control flow itself is
translated statement by statement from the source.
-/

namespace Scraper

/-- A row of the `scrape_jobs` table (interface `ScrapeJob` in
`database.ts`): `completed_at`, `error_message`, `result_data` are nullable
columns. -/
structure ScrapeJobRow where
  id : Nat
  job_id : String
  job_type : String
  status : String
  started_at : String
  completed_at : Option String
  error_message : Option String
  result_data : Option String
deriving Repr, DecidableEq

/-- A row of the `scraped_content` table (interface `ScrapedContent`). -/
structure ContentRow where
  id : Nat
  source : String
  url : String
  title : Option String
  content : String
  raw_data : String
  scraped_at : String
  metadata : Option String
deriving Repr, DecidableEq

/-- The persistent store: the two tables of `createTables`, with the SQLite
`AUTOINCREMENT` counters made explicit. -/
structure DB where
  jobs : List ScrapeJobRow
  nextJobRowId : Nat
  contents : List ContentRow
  nextContentRowId : Nat
deriving Repr, DecidableEq

/-- The empty freshly-created database. -/
def DB.empty : DB := ⟨[], 1, [], 1⟩

/-- Argument record of `createScrapeJob` (`Omit<ScrapeJob, 'id'>`; the
insert statement only binds `job_id, job_type, status, started_at,
result_data`, so the other optional fields are irrelevant and omitted). -/
structure NewJob where
  job_id : String
  job_type : String
  status : String
  started_at : String
  result_data : Option String
deriving Repr, DecidableEq

/-- `getScrapeJob(jobId)`: `SELECT * FROM scrape_jobs WHERE job_id = ?`,
returning the first matching row or null. -/
def getScrapeJob (db : DB) (jobId : String) : Option ScrapeJobRow :=
  db.jobs.find? (fun r => r.job_id == jobId)

/-- `createScrapeJob(jobData)`: looks the `job_id` up first and returns the
existing row's id unchanged; otherwise inserts a fresh row (with NULL
`completed_at`/`error_message`) and returns `lastInsertRowid`. -/
def createScrapeJob (db : DB) (jd : NewJob) : Nat × DB :=
  match getScrapeJob db jd.job_id with
  | some row => (row.id, db)
  | none =>
    let row : ScrapeJobRow :=
      { id := db.nextJobRowId
        job_id := jd.job_id
        job_type := jd.job_type
        status := jd.status
        started_at := jd.started_at
        completed_at := none
        error_message := none
        result_data := jd.result_data }
    (db.nextJobRowId,
      { db with jobs := db.jobs ++ [row], nextJobRowId := db.nextJobRowId + 1 })

/-- Argument record of `updateScrapeJob` (`Partial<ScrapeJob>` restricted to
the four columns the function inspects); `some v` models the field being
provided (`!== undefined`). -/
structure JobUpdate where
  status : Option String
  completed_at : Option String
  error_message : Option String
  result_data : Option String
deriving Repr, DecidableEq

/-- The update with no provided field. -/
def JobUpdate.empty : JobUpdate := ⟨none, none, none, none⟩

/-- Effect of the generated `SET` clause on one matching row: each provided
field overwrites the column, the rest keep their value. -/
def applyUpdate (u : JobUpdate) (r : ScrapeJobRow) : ScrapeJobRow :=
  { r with
    status := u.status.getD r.status
    completed_at := u.completed_at.or r.completed_at
    error_message := u.error_message.or r.error_message
    result_data := u.result_data.or r.result_data }

/-- `updateScrapeJob(jobId, updates)`: builds `setParts` from the provided
fields; if none is provided it returns early; otherwise runs
`UPDATE scrape_jobs SET ... WHERE job_id = ?`, which rewrites every row
whose `job_id` matches and touches nothing else. -/
def updateScrapeJob (db : DB) (jobId : String) (u : JobUpdate) : DB :=
  if u = JobUpdate.empty then db
  else
    { db with
      jobs := db.jobs.map (fun r => if r.job_id == jobId then applyUpdate u r else r) }

/-- Argument record of `saveScrapedContent` (`Omit<ScrapedContent, 'id'>`). -/
structure NewContent where
  source : String
  url : String
  title : Option String
  content : String
  raw_data : String
  scraped_at : String
  metadata : Option String
deriving Repr, DecidableEq

/-- `saveScrapedContent(content)`: plain `INSERT` into `scraped_content`,
returning `lastInsertRowid`. -/
def saveScrapedContent (db : DB) (c : NewContent) : Nat × DB :=
  let row : ContentRow :=
    { id := db.nextContentRowId
      source := c.source
      url := c.url
      title := c.title
      content := c.content
      raw_data := c.raw_data
      scraped_at := c.scraped_at
      metadata := c.metadata }
  (db.nextContentRowId,
    { db with contents := db.contents ++ [row], nextContentRowId := db.nextContentRowId + 1 })

/-! ## Navigation candidate ladders -/

/-- Outcome of one candidate URL in `navigateToSubreddit`: either
`page.goto` (or a wait) throws, or the page loads and
`detectRedditContent()` returns the given boolean. -/
inductive RCand where
  | gotoErr (msg : String)
  | loaded (detected : Bool)
deriving Repr, DecidableEq

/-- A candidate fails when goto throws or the success predicate is false. -/
def RCand.fails : RCand → Bool
  | .gotoErr _ => true
  | .loaded d => !d

/-- The message recorded in `lastError` when this candidate fails: the goto
error's message, or the literal thrown when content is not detected. -/
def RCand.failMsg : RCand → String
  | .gotoErr m => m
  | .loaded _ => "Reddit content not detected on page"

/-- The exhaustion error of `navigateToSubreddit`:
`Could not access r/X. ${lastError?.message || 'Unknown error'}`. -/
def redditExhaustMsg (sub : String) (lastErr : Option String) : String :=
  "Could not access r/" ++ sub ++ ". " ++ lastErr.getD "Unknown error"

/-- The `for` loop of `navigateToSubreddit` over the remaining candidates,
carrying `lastError` and the number of candidates attempted so far.
Returns (number of candidates attempted, result); on success the result is
the 0-based index of the resolved candidate. -/
def redditNavLoop (sub : String) :
    List RCand → Option String → Nat → Nat × Except String Nat
  | [], lastErr, att => (att, .error (redditExhaustMsg sub lastErr))
  | c :: rest, _lastErr, att =>
    match c with
    | .gotoErr m => redditNavLoop sub rest (some m) (att + 1)
    | .loaded true => (att + 1, .ok att)
    | .loaded false =>
        redditNavLoop sub rest (some "Reddit content not detected on page") (att + 1)

/-- `navigateToSubreddit`, abstracted over the per-candidate outcomes of its
`urlsToTry` ladder (old.reddit first, then www.reddit). -/
def navigateToSubreddit (sub : String) (outs : List RCand) : Nat × Except String Nat :=
  redditNavLoop sub outs none 0

/-- Outcome of one candidate URL in `navigateToTikTok`: `goto` throws, or
the page loads and the `useful` content check returns the given boolean. -/
inductive TCand where
  | gotoErr (msg : String)
  | loaded (useful : Bool)
deriving Repr, DecidableEq

/-- A TikTok candidate fails when goto throws or the page is not useful. -/
def TCand.fails : TCand → Bool
  | .gotoErr _ => true
  | .loaded u => !u

/-- The fixed exhaustion message of `navigateToTikTok` (note: it does not
mention any underlying error). -/
def tiktokExhaustMsg : String := "All TikTok URLs failed to load useful content"

/-- The `for` loop of `navigateToTikTok` over (url, outcome) candidates:
a goto error is caught and `continue`s, a non-useful page just falls
through; the first useful page's URL is returned; exhaustion throws the
fixed message. Returns (candidates attempted, result). -/
def tiktokNavLoop : List (String × TCand) → Nat → Nat × Except String String
  | [], att => (att, .error tiktokExhaustMsg)
  | (url, c) :: rest, att =>
    match c with
    | .gotoErr _ => tiktokNavLoop rest (att + 1)
    | .loaded true => (att + 1, .ok url)
    | .loaded false => tiktokNavLoop rest (att + 1)

/-- The `urlsToTry` list of `navigateToTikTok`. -/
def tiktokUrls : List String :=
  ["https://www.tiktok.com/explore",
   "https://www.tiktok.com/tag/fyp",
   "https://www.tiktok.com/tag/viral",
   "https://www.tiktok.com/discover",
   "https://www.tiktok.com/"]

/-- `navigateToTikTok`, abstracted over the per-candidate outcomes. -/
def navigateToTikTok (cands : List (String × TCand)) : Nat × Except String String :=
  tiktokNavLoop cands 0

/-! ## Reddit extraction: `extractPosts` and `fallbackExtraction` -/

/-- The structure of a Reddit post (interface `RedditPost`); `postType` is
kept as a string over the four literal values. -/
structure RedditPost where
  id : String
  title : String
  author : String
  subreddit : String
  upvotes : Int
  comments : Nat
  created : String
  url : String
  postType : String
  content : Option String
  linkUrl : Option String
deriving Repr, DecidableEq

/-- One `.thing` element of the listing page, as seen by the per-element
parsing body inside `page.$$eval`: either the field extraction succeeds and
yields the given post, or some step of it throws (the `catch` at the bottom
of the loop body). -/
inductive PostEl where
  | good (p : RedditPost)
  | bad
deriving Repr, DecidableEq

/-- Per-element parse: a good element yields its post, a throwing element is
skipped (`catch { continue with next post }`). -/
def parseEl : PostEl → Option RedditPost
  | .good p => some p
  | .bad => none

/-- The extraction loop inside `page.$$eval('.thing', ...)`: visits the
first `min(postElements.length, maxPosts)` elements, pushing each
successfully parsed post and skipping elements whose parse throws. -/
def extractLoop (els : List PostEl) (maxPosts : Nat) : List RedditPost :=
  (els.take maxPosts).filterMap parseEl

/-- One anchor found by the fallback's `$$eval('.thing .title a', ...)`:
(text content, href). -/
structure TitleAnchor where
  titleText : String
  href : String
deriving Repr, DecidableEq

/-- `fallbackExtraction(subredditName, maxPosts)`: takes the first **5**
anchors (`elements.slice(0, 5)`) — the `maxPosts` argument is never used —
and synthesizes coarse posts: id `fallback_<index>`, author/subreddit
`unknown`, zero upvotes and comments, type `text`. If its own `$$eval`
throws, it returns `[]`. `now` stands for `new Date().toISOString()`. -/
def fallbackExtraction (fbErr : Bool) (anchors : List TitleAnchor)
    (now : String) : List RedditPost :=
  if fbErr then []
  else
    (anchors.take 5).enum.map (fun p =>
      { id := "fallback_" ++ toString p.1
        title := p.2.titleText
        author := "unknown"
        subreddit := "unknown"
        upvotes := 0
        comments := 0
        created := now
        url := p.2.href
        postType := "text"
        content := none
        linkUrl := none })

/-- Batch-level environment of one `extractPosts` call: whether the primary
`$$eval` throws wholesale, the `.thing` elements it sees otherwise, and the
fallback's own environment. -/
structure ExtractEnv where
  batchErr : Option String
  els : List PostEl
  fbErr : Bool
  fbAnchors : List TitleAnchor
deriving Repr, DecidableEq

/-- `extractPosts(subredditName, maxPosts)`: runs the primary extraction;
if the primary `$$eval` throws at batch level, falls back to
`fallbackExtraction`. Returns the posts and whether the fallback ran. -/
def extractPosts (env : ExtractEnv) (maxPosts : Nat) (now : String) :
    List RedditPost × Bool :=
  match env.batchErr with
  | none => (extractLoop env.els maxPosts, false)
  | some _ => (fallbackExtraction env.fbErr env.fbAnchors now, true)

/-! ## TikTok extraction: `extractTikTokData` -/

/-- A TikTok discovery item (interface `TikTokData`); `type` ranges over the
literals `video`, `profile`, `category`. -/
structure TikTokItem where
  type : String
  name : String
  url : String
  text : Option String
  scrapedAt : String
deriving Repr, DecidableEq

/-- The de-duplication filter at the end of `extractTikTokData`: keep an
item iff the first index holding an item with the same `(name, type)` key
is its own index (`self.findIndex(...) === index`). -/
def dedupTik (l : List TikTokItem) : List TikTokItem :=
  (l.enum.filter (fun p =>
    l.findIdx (fun d => d.name == p.2.name && d.type == p.2.type) == p.1)).map (·.2)

/-- `extractTikTokData`, abstracted over the raw `data` array the in-page
evaluation collects (video links, then profile links, then categories):
the function returns that array de-duplicated on `(name, type)`. -/
def extractTikTokData (raw : List TikTokItem) : List TikTokItem :=
  dedupTik raw

/-! ## Worker job handlers (`scraper-worker.ts`)

Each handler is modelled over an environment fixing the outcome of every
external call in one execution. The output records the thrown error or the
returned result, the database afterwards, how many browser sessions were
opened, how many times the scraper's `close()` was invoked, and whether a
launched browser was actually closed. -/

/-- Output of one job-handler execution; `ρ` is the handler's result
payload. -/
structure HOut (ρ : Type) where
  result : Except String ρ
  db : DB
  opens : Nat
  closeCalls : Nat
  browserClosed : Bool
deriving Repr

/-- `JSON.stringify` and similar serializations are modelled by `Repr`
printing; no claim inspects the serialized text. -/
def serialize {α : Type} [Repr α] (a : α) : String :=
  reprStr a

/-- Result payload of `processQuotesJob`. -/
structure QuotesResult where
  quotesCount : Nat
  contentId : Nat
deriving Repr, DecidableEq

/-- Environment of one `processQuotesJob` execution. `launchErr` models
`chromium.launch` throwing inside `scraper.init()` (no session opened yet);
`initErr` models a later step of `init` throwing (session already open);
`scrapeErr` covers `scrapeAllPages` / `formatAsMarkdown` / `writeFile`
throwing; `saveErr` a `saveScrapedContent` insert failure. `quotes` is the
scraped result, `markdown` its formatted text.

Modelled from the spec: `QuotesScraper` itself (src/scrapers/quotes-scraper.ts
is absent from the sources; only the handler that drives it is present).
Per the spec's resource discipline, its `init` opens one browser session
and `close()` releases the session iff one is open, as the Reddit and
TikTok scrapers do. -/
structure QuotesEnv where
  launchErr : Option String
  initErr : Option String
  scrapeErr : Option String
  quotesCount : Nat
  markdown : String
  rawData : String
  saveErr : Option String
  url : String
deriving Repr, DecidableEq

/-- The `scraped_content` row the quotes handler saves. -/
def quotesContent (env : QuotesEnv) (now : String) : NewContent :=
  { source := "quotes"
    url := env.url
    title := some (toString env.quotesCount ++ " Quotes Scraped")
    content := env.markdown
    raw_data := env.rawData
    scraped_at := now
    metadata := some (serialize (env.quotesCount, now)) }

/-- `processQuotesJob`: init, scrape, format, write file, save content,
mark the job row completed; the `catch` block only logs and rethrows (no
database update), the `finally` block always invokes `scraper.close()`. -/
def processQuotesJob (db : DB) (jobId : String) (now : String)
    (env : QuotesEnv) : HOut QuotesResult :=
  match env.launchErr with
  | some m => ⟨.error m, db, 0, 1, false⟩
  | none =>
  match env.initErr with
  | some m => ⟨.error m, db, 1, 1, true⟩
  | none =>
  match env.scrapeErr with
  | some m => ⟨.error m, db, 1, 1, true⟩
  | none =>
  match env.saveErr with
  | some m => ⟨.error m, db, 1, 1, true⟩
  | none =>
    let (contentId, db1) := saveScrapedContent db (quotesContent env now)
    let db2 := updateScrapeJob db1 jobId
      ⟨some "completed", some now, none,
        some (serialize (env.quotesCount, contentId))⟩
    ⟨.ok ⟨env.quotesCount, contentId⟩, db2, 1, 1, true⟩

/-- The `failed` update written by the Reddit/TikTok `catch` blocks:
status `failed`, `completed_at` now, `error_message` from the thrown
error's message. -/
def failedUpdate (now m : String) : JobUpdate :=
  ⟨some "failed", some now, some m, none⟩

/-- JavaScript `x || d` for an optional numeric job parameter (`0` is
falsy). -/
def jsNumOr (x : Option Nat) (d : Nat) : Nat :=
  match x with
  | some n => if n = 0 then d else n
  | none => d

/-- The markdown body the Reddit handler stores for one post
(`post.content || 'No content'`: empty string is falsy). -/
def redditContentBody (p : RedditPost) : String :=
  "**Author:** u/" ++ p.author ++ "\n**Upvotes:** " ++ toString p.upvotes ++
  "\n**Comments:** " ++ toString p.comments ++ "\n**Type:** " ++ p.postType ++
  "\n\n" ++
  (match p.content with
   | some c => if c = "" then "No content" else c
   | none => "No content")

/-- The `scraped_content` row the Reddit handler saves for one post. -/
def redditContentOf (p : RedditPost) (now : String) : NewContent :=
  { source := "reddit"
    url := p.url
    title := some p.title
    content := redditContentBody p
    raw_data := serialize p
    scraped_at := now
    metadata := some (serialize p) }

/-- The per-record store loop shared by the Reddit and TikTok handlers:
each `saveScrapedContent` call may throw (outcome `ok.getD i true`); a
failure is logged and skipped, a success appends the row and increments
`storedCount`. Returns the database and the final `storedCount`. -/
def storeLoopGo (ok : List Bool) : DB → Nat → Nat → List NewContent → DB × Nat
  | db, _, cnt, [] => (db, cnt)
  | db, i, cnt, c :: rest =>
    if ok.getD i true then
      storeLoopGo ok (saveScrapedContent db c).2 (i + 1) (cnt + 1) rest
    else
      storeLoopGo ok db (i + 1) cnt rest

/-- Entry point of the store loop: row index and `storedCount` start at 0. -/
def storeLoop (db : DB) (rows : List NewContent) (ok : List Bool) : DB × Nat :=
  storeLoopGo ok db 0 0 rows

/-- Result payload of `processRedditJob` (the fields of its `result` object
that the claims inspect). -/
structure RedditResult where
  postsExtracted : Nat
  postsStored : Nat
deriving Repr, DecidableEq

/-- Environment of one `processRedditJob` execution. -/
structure RedditEnv where
  launchErr : Option String
  initErr : Option String
  navOuts : List RCand
  extract : ExtractEnv
  storeOk : List Bool
deriving Repr, DecidableEq

/-- `processRedditJob`: init, navigate the candidate ladder, extract posts
(with batch-level fallback), throw if zero posts, store each post with
per-record error recovery, mark the job row completed. Every path of the
`catch` block writes the `failed` update before rethrowing; the `finally`
block always invokes `scraper.close()`. `sub` is the subreddit name parsed
from the job's URL. -/
def processRedditJob (db : DB) (jobId : String) (sub : String)
    (pages : Option Nat) (now : String) (env : RedditEnv) : HOut RedditResult :=
  match env.launchErr with
  | some m => ⟨.error m, updateScrapeJob db jobId (failedUpdate now m), 0, 1, false⟩
  | none =>
  match env.initErr with
  | some m => ⟨.error m, updateScrapeJob db jobId (failedUpdate now m), 1, 1, true⟩
  | none =>
  match (navigateToSubreddit sub env.navOuts).2 with
  | .error m => ⟨.error m, updateScrapeJob db jobId (failedUpdate now m), 1, 1, true⟩
  | .ok _ =>
    let maxPosts := jsNumOr pages 10
    let posts := (extractPosts env.extract maxPosts now).1
    if posts.isEmpty then
      let m := "No posts found - subreddit might be empty or private"
      ⟨.error m, updateScrapeJob db jobId (failedUpdate now m), 1, 1, true⟩
    else
      let (db1, stored) := storeLoop db (posts.map (redditContentOf · now)) env.storeOk
      let res : RedditResult := ⟨posts.length, stored⟩
      let db2 := updateScrapeJob db1 jobId
        ⟨some "completed", some now, none, some (serialize (res.postsExtracted, res.postsStored))⟩
      ⟨.ok res, db2, 1, 1, true⟩

/-- Result payload of `processTikTokJob`. -/
structure TikTokResult where
  dataExtracted : Nat
  dataStored : Nat
deriving Repr, DecidableEq

/-- Environment of one `processTikTokJob` execution; `items` is the raw
`data` array collected by the in-page evaluation of `extractTikTokData`. -/
structure TikTokEnv where
  launchErr : Option String
  initErr : Option String
  navOuts : List (String × TCand)
  items : List TikTokItem
  storeOk : List Bool
deriving Repr, DecidableEq

/-- Title and content the TikTok handler builds for one item (the `switch`
on `item.type`; an unmatched type leaves both empty). -/
def tiktokTitleContent (it : TikTokItem) : String × String :=
  if it.type == "video" then
    ("TikTok Video: " ++ it.name,
     "**Type:** Video\n**Video ID:** " ++ it.name ++ "\n**Views/Info:** " ++
       (it.text.getD "N/A") ++ "\n**URL:** " ++ it.url ++
       "\n\nExtracted from TikTok explore page")
  else if it.type == "profile" then
    ("TikTok Profile: @" ++ it.name,
     "**Type:** Profile\n**Username:** " ++ it.name ++ "\n**Info:** " ++
       (it.text.getD "N/A") ++ "\n**URL:** " ++ it.url ++
       "\n\nTikTok creator profile")
  else if it.type == "category" then
    ("TikTok Category: " ++ it.name,
     "**Type:** Category\n**Name:** " ++ it.name ++ "\n**Description:** " ++
       (it.text.getD "TikTok content category") ++ "\n**URL:** " ++ it.url ++
       "\n\nContent category from TikTok explore")
  else ("", "")

/-- The `scraped_content` row the TikTok handler saves for one item. -/
def tiktokContentOf (it : TikTokItem) (now : String) : NewContent :=
  let tc := tiktokTitleContent it
  { source := "tiktok"
    url := it.url
    title := some tc.1
    content := tc.2
    raw_data := serialize it
    scraped_at := now
    metadata := some (serialize it) }

/-- `processTikTokJob`: init, navigate the TikTok URL ladder, extract and
de-duplicate items (an empty extraction is a warning, not an error), store
each item with per-record error recovery, mark the job row completed.
Every path of the `catch` block writes the `failed` update before
rethrowing; the `finally` block always invokes `scraper.close()`. -/
def processTikTokJob (db : DB) (jobId : String) (now : String)
    (env : TikTokEnv) : HOut TikTokResult :=
  match env.launchErr with
  | some m => ⟨.error m, updateScrapeJob db jobId (failedUpdate now m), 0, 1, false⟩
  | none =>
  match env.initErr with
  | some m => ⟨.error m, updateScrapeJob db jobId (failedUpdate now m), 1, 1, true⟩
  | none =>
  match (navigateToTikTok env.navOuts).2 with
  | .error m => ⟨.error m, updateScrapeJob db jobId (failedUpdate now m), 1, 1, true⟩
  | .ok _ =>
    let data := extractTikTokData env.items
    let (db1, stored) := storeLoop db (data.map (tiktokContentOf · now)) env.storeOk
    let res : TikTokResult := ⟨data.length, stored⟩
    let db2 := updateScrapeJob db1 jobId
      ⟨some "completed", some now, none, some (serialize (res.dataExtracted, res.dataStored))⟩
    ⟨.ok res, db2, 1, 1, true⟩

/-- Type-erased view of a handler execution, for the router. -/
structure RouteOut where
  result : Except String Unit
  db : DB
  opens : Nat
  closeCalls : Nat
deriving Repr

/-- Erase a handler output's payload. -/
def HOut.toRoute {ρ : Type} (o : HOut ρ) : RouteOut :=
  ⟨o.result.map (fun _ => ()), o.db, o.opens, o.closeCalls⟩

/-- The registered job type strings (enum `JobType` in `config/bullmq.ts`). -/
def JobTypeValues : List String :=
  ["scrape-quotes", "scrape-reddit", "scrape-tiktok"]

/-- `processScrapeJob`: routes on `job.data.type`; the `default` branch
throws `Unknown job type: <type>` without constructing any scraper, and the
outer `catch` only logs and rethrows. -/
def processScrapeJob (db : DB) (jobId : String) (jtype : String)
    (qenv : QuotesEnv) (sub : String) (pages : Option Nat)
    (renv : RedditEnv) (tenv : TikTokEnv) (now : String) : RouteOut :=
  if jtype == "scrape-quotes" then (processQuotesJob db jobId now qenv).toRoute
  else if jtype == "scrape-reddit" then
    (processRedditJob db jobId sub pages now renv).toRoute
  else if jtype == "scrape-tiktok" then (processTikTokJob db jobId now tenv).toRoute
  else ⟨.error ("Unknown job type: " ++ jtype), db, 0, 0⟩

/-! ## Store lemmas -/

theorem applyUpdate_job_id (u : JobUpdate) (r : ScrapeJobRow) :
    (applyUpdate u r).job_id = r.job_id := rfl

theorem applyUpdate_empty (r : ScrapeJobRow) : applyUpdate JobUpdate.empty r = r := by
  cases r; rfl

/-- `find?` over a row-wise rewrite that does not change the predicate's
verdict commutes with the rewrite. -/
theorem find?_map_pred {α : Type} (l : List α) (g : α → α) (p : α → Bool)
    (hp : ∀ r, p (g r) = p r) :
    (l.map g).find? p = (l.find? p).map g := by
  induction l with
  | nil => rfl
  | cons a t ih =>
    cases h : p a with
    | false =>
      rw [List.map_cons, List.find?_cons_of_neg _ (by simp [hp, h]),
        List.find?_cons_of_neg _ (by simp [h]), ih]
    | true =>
      rw [List.map_cons, List.find?_cons_of_pos _ (by simp [hp, h]),
        List.find?_cons_of_pos _ h]
      rfl

/-- The predicate matched by rows is stable under the update rewrite. -/
theorem update_row_pred (jid jid2 : String) (u : JobUpdate) (r : ScrapeJobRow) :
    ((if r.job_id == jid2 then applyUpdate u r else r).job_id == jid)
      = (r.job_id == jid) := by
  by_cases hc : (r.job_id == jid2) = true <;> simp [hc, applyUpdate_job_id]

/-- Equation for the non-trivial branch of `updateScrapeJob`. -/
theorem updateScrapeJob_eq (db : DB) (jid : String) (u : JobUpdate)
    (he : u ≠ JobUpdate.empty) :
    updateScrapeJob db jid u =
      { db with
        jobs := db.jobs.map (fun r => if r.job_id == jid then applyUpdate u r else r) } := by
  unfold updateScrapeJob
  rw [if_neg he]

/-- Looking up the targeted `job_id` after `updateScrapeJob` sees exactly
the updated row. -/
theorem getScrapeJob_update (db : DB) (jid : String) (u : JobUpdate) :
    getScrapeJob (updateScrapeJob db jid u) jid
      = (getScrapeJob db jid).map (applyUpdate u) := by
  by_cases he : u = JobUpdate.empty
  · rw [he]
    have h0 : updateScrapeJob db jid JobUpdate.empty = db := by
      unfold updateScrapeJob
      rw [if_pos rfl]
    rw [h0]
    cases getScrapeJob db jid <;> simp [applyUpdate_empty]
  · rw [updateScrapeJob_eq db jid u he]
    show (db.jobs.map (fun r => if r.job_id == jid then applyUpdate u r else r)).find?
        (fun r => r.job_id == jid)
      = (db.jobs.find? (fun r => r.job_id == jid)).map (applyUpdate u)
    rw [find?_map_pred _ _ _ (update_row_pred jid jid u)]
    cases hf : db.jobs.find? (fun r => r.job_id == jid) with
    | none => rfl
    | some r0 =>
      have hp := List.find?_some hf
      simp only [Option.map_some']
      rw [if_pos hp]

/-- Looking up a different `job_id` after `updateScrapeJob` is unchanged. -/
theorem getScrapeJob_update_ne (db : DB) (jid jid2 : String) (u : JobUpdate)
    (h : jid ≠ jid2) :
    getScrapeJob (updateScrapeJob db jid2 u) jid = getScrapeJob db jid := by
  by_cases he : u = JobUpdate.empty
  · rw [he]
    have h0 : updateScrapeJob db jid2 JobUpdate.empty = db := by
      unfold updateScrapeJob
      rw [if_pos rfl]
    rw [h0]
  · rw [updateScrapeJob_eq db jid2 u he]
    show (db.jobs.map (fun r => if r.job_id == jid2 then applyUpdate u r else r)).find?
        (fun r => r.job_id == jid)
      = db.jobs.find? (fun r => r.job_id == jid)
    rw [find?_map_pred _ _ _ (update_row_pred jid jid2 u)]
    cases hf : db.jobs.find? (fun r => r.job_id == jid) with
    | none => rfl
    | some r0 =>
      have hp := List.find?_some hf
      have heq : r0.job_id = jid := by simpa using hp
      have hne : (r0.job_id == jid2) = false := by simp [heq, h]
      simp only [Option.map_some']
      rw [if_neg (by simp [hne])]

/-- The row inserted by the `none` branch of `createScrapeJob`. -/
def newJobRow (db : DB) (jd : NewJob) : ScrapeJobRow :=
  { id := db.nextJobRowId
    job_id := jd.job_id
    job_type := jd.job_type
    status := jd.status
    started_at := jd.started_at
    completed_at := none
    error_message := none
    result_data := jd.result_data }

/-- Equation for `createScrapeJob` when the job already exists. -/
theorem createScrapeJob_of_some (db : DB) (jd : NewJob) (row : ScrapeJobRow)
    (hf : getScrapeJob db jd.job_id = some row) :
    createScrapeJob db jd = (row.id, db) := by
  unfold createScrapeJob
  rw [hf]

/-- Equation for `createScrapeJob` when the job is new. -/
theorem createScrapeJob_of_none (db : DB) (jd : NewJob)
    (hf : getScrapeJob db jd.job_id = none) :
    createScrapeJob db jd =
      (db.nextJobRowId,
        { db with jobs := db.jobs ++ [newJobRow db jd],
                  nextJobRowId := db.nextJobRowId + 1 }) := by
  unfold createScrapeJob
  rw [hf]
  rfl

/-- Rows already present survive `createScrapeJob`. -/
theorem getScrapeJob_create_of_some (db : DB) (jd : NewJob) (jid : String)
    (r : ScrapeJobRow) (h : getScrapeJob db jid = some r) :
    getScrapeJob (createScrapeJob db jd).2 jid = some r := by
  cases hf : getScrapeJob db jd.job_id with
  | some row => rw [createScrapeJob_of_some db jd row hf]; exact h
  | none =>
    rw [createScrapeJob_of_none db jd hf]
    show ((db.jobs ++ [_]).find? _) = _
    rw [List.find?_append]
    unfold getScrapeJob at h
    rw [h]
    rfl

/-- The freshly inserted row is found by its `job_id`. -/
theorem getScrapeJob_create_of_none (db : DB) (jd : NewJob)
    (hf : getScrapeJob db jd.job_id = none) :
    getScrapeJob (createScrapeJob db jd).2 jd.job_id = some (newJobRow db jd) := by
  rw [createScrapeJob_of_none db jd hf]
  show ((db.jobs ++ [newJobRow db jd]).find? (fun r => r.job_id == jd.job_id))
    = some (newJobRow db jd)
  rw [List.find?_append]
  unfold getScrapeJob at hf
  rw [hf, Option.none_or, List.find?_cons_of_pos _ (by simp [newJobRow])]

/-! ## C4 — idempotent job creation -/

/-- C4: job creation is idempotent. After `createScrapeJob db jd` returns
`(rowId, db')`, calling `createScrapeJob` again on `db'` with the same
`job_id` inserts nothing, leaves the store unchanged, and returns `rowId`;
moreover the stored row for that `job_id` exists and has id `rowId`. -/
theorem C4_createScrapeJob_idempotent (db : DB) (jd jd' : NewJob)
    (h : jd'.job_id = jd.job_id) :
    createScrapeJob (createScrapeJob db jd).2 jd'
        = ((createScrapeJob db jd).1, (createScrapeJob db jd).2) ∧
      ∃ row, getScrapeJob (createScrapeJob db jd).2 jd'.job_id = some row ∧
        row.id = (createScrapeJob db jd).1 := by
  cases hf : getScrapeJob db jd.job_id with
  | some row =>
    have h1 : createScrapeJob db jd = (row.id, db) := createScrapeJob_of_some db jd row hf
    have h2 : getScrapeJob (createScrapeJob db jd).2 jd'.job_id = some row := by
      rw [h1, h, hf]
    have h3 : createScrapeJob (createScrapeJob db jd).2 jd' = (row.id, (createScrapeJob db jd).2) :=
      createScrapeJob_of_some _ jd' row h2
    refine ⟨?_, row, h2, by rw [h1]⟩
    rw [h3, h1]
  | none =>
    have h2 : getScrapeJob (createScrapeJob db jd).2 jd'.job_id = some (newJobRow db jd) := by
      rw [h]
      exact getScrapeJob_create_of_none db jd hf
    have h1 : createScrapeJob db jd =
        (db.nextJobRowId,
          { db with jobs := db.jobs ++ [newJobRow db jd],
                    nextJobRowId := db.nextJobRowId + 1 }) :=
      createScrapeJob_of_none db jd hf
    have h3 : createScrapeJob (createScrapeJob db jd).2 jd'
        = ((newJobRow db jd).id, (createScrapeJob db jd).2) :=
      createScrapeJob_of_some _ jd' _ h2
    refine ⟨?_, _, h2, ?_⟩
    · rw [h3, h1]
      rfl
    · rw [h1]
      rfl

/-- C4 witness: creating the same job twice on the empty store. -/
theorem C4_witness :
    createScrapeJob (createScrapeJob DB.empty
          ⟨"42", "scrape-reddit", "pending", "t0", none⟩).2
        ⟨"42", "scrape-reddit", "pending", "t1", none⟩
      = ((createScrapeJob DB.empty ⟨"42", "scrape-reddit", "pending", "t0", none⟩).1,
         (createScrapeJob DB.empty ⟨"42", "scrape-reddit", "pending", "t0", none⟩).2) :=
  (C4_createScrapeJob_idempotent DB.empty
    ⟨"42", "scrape-reddit", "pending", "t0", none⟩
    ⟨"42", "scrape-reddit", "pending", "t1", none⟩ rfl).1

/-! ## C8 — partial updates touch only the provided fields -/

/-- C8: `updateScrapeJob` rewrites only the rows whose `job_id` matches and
within them only the provided fields; the content table, counters, row
count, row identity fields, and non-matching rows are untouched, and an
update providing no field at all leaves the store identical. -/
theorem C8_updateScrapeJob_frame (db : DB) (jid : String) (u : JobUpdate) :
    (updateScrapeJob db jid u).contents = db.contents ∧
    (updateScrapeJob db jid u).nextJobRowId = db.nextJobRowId ∧
    (updateScrapeJob db jid u).nextContentRowId = db.nextContentRowId ∧
    (updateScrapeJob db jid u).jobs.length = db.jobs.length ∧
    (∀ (i : Nat) (r r' : ScrapeJobRow),
      db.jobs[i]? = some r → (updateScrapeJob db jid u).jobs[i]? = some r' →
      (¬ r.job_id = jid → r' = r) ∧
      (r.job_id = jid →
        r'.id = r.id ∧ r'.job_id = r.job_id ∧ r'.job_type = r.job_type ∧
        r'.started_at = r.started_at ∧
        r'.status = u.status.getD r.status ∧
        r'.completed_at = u.completed_at.or r.completed_at ∧
        r'.error_message = u.error_message.or r.error_message ∧
        r'.result_data = u.result_data.or r.result_data)) ∧
    (u = JobUpdate.empty → updateScrapeJob db jid u = db) := by
  by_cases he : u = JobUpdate.empty
  · have h0 : updateScrapeJob db jid u = db := by
      unfold updateScrapeJob
      rw [if_pos he]
    rw [h0]
    refine ⟨rfl, rfl, rfl, rfl, ?_, fun _ => rfl⟩
    intro i r r' h1 h2
    have hrr : r' = r := by rw [h1] at h2; exact (Option.some_inj.1 h2).symm
    subst hrr
    subst he
    exact ⟨fun _ => rfl, fun _ => ⟨rfl, rfl, rfl, rfl, rfl, rfl, rfl, rfl⟩⟩
  · rw [updateScrapeJob_eq db jid u he]
    refine ⟨rfl, rfl, rfl, List.length_map .., ?_, fun hcon => absurd hcon he⟩
    intro i r r' h1 h2
    have h2' : (db.jobs.map
        (fun r => if r.job_id == jid then applyUpdate u r else r))[i]? = some r' := h2
    rw [List.getElem?_map, h1, Option.map_some'] at h2'
    have hr' := (Option.some_inj.1 h2').symm
    constructor
    · intro hne
      rw [hr']
      simp [hne]
    · intro heq
      rw [hr']
      rw [if_pos (by simp [heq])]
      exact ⟨rfl, rfl, rfl, rfl, rfl, rfl, rfl, rfl⟩

/-- C8 witness: a status-only update on a one-row store. -/
theorem C8_witness :
    ((updateScrapeJob
        ⟨[⟨1, "j1", "scrape-reddit", "pending", "t0", none, none, none⟩], 2, [], 1⟩
        "j1" ⟨some "completed", none, none, none⟩).jobs.length
      = 1) ∧
    (updateScrapeJob
        ⟨[⟨1, "j1", "scrape-reddit", "pending", "t0", none, none, none⟩], 2, [], 1⟩
        "j1" JobUpdate.empty
      = ⟨[⟨1, "j1", "scrape-reddit", "pending", "t0", none, none, none⟩], 2, [], 1⟩) := by
  refine ⟨?_, ?_⟩
  · exact (C8_updateScrapeJob_frame
      ⟨[⟨1, "j1", "scrape-reddit", "pending", "t0", none, none, none⟩], 2, [], 1⟩
      "j1" ⟨some "completed", none, none, none⟩).2.2.2.1.trans rfl
  · exact (C8_updateScrapeJob_frame
      ⟨[⟨1, "j1", "scrape-reddit", "pending", "t0", none, none, none⟩], 2, [], 1⟩
      "j1" JobUpdate.empty).2.2.2.2.2 rfl

/-! ## C10 — updating an absent job is a silent no-op -/

/-- C10: when no row carries the given `job_id`, `updateScrapeJob` returns
the store unchanged — no error, no inserted row, a lost lifecycle update. -/
theorem C10_update_missing_noop (db : DB) (jid : String) (u : JobUpdate)
    (h : getScrapeJob db jid = none) :
    updateScrapeJob db jid u = db := by
  unfold updateScrapeJob
  by_cases he : u = JobUpdate.empty
  · rw [if_pos he]
  · rw [if_neg he]
    have hall := List.find?_eq_none.1 h
    have hmap : db.jobs.map (fun r => if r.job_id == jid then applyUpdate u r else r)
        = db.jobs.map id := by
      apply List.map_congr_left
      intro a ha
      have := hall a ha
      simp only [id]
      rw [if_neg this]
    rw [hmap, List.map_id]

/-- C10 witness: updating a never-created job id on a one-row store. -/
theorem C10_witness :
    updateScrapeJob
        ⟨[⟨1, "j1", "scrape-reddit", "pending", "t0", none, none, none⟩], 2, [], 1⟩
        "ghost" ⟨some "failed", some "t1", some "boom", none⟩
      = ⟨[⟨1, "j1", "scrape-reddit", "pending", "t0", none, none, none⟩], 2, [], 1⟩ :=
  C10_update_missing_noop
    ⟨[⟨1, "j1", "scrape-reddit", "pending", "t0", none, none, none⟩], 2, [], 1⟩
    "ghost" ⟨some "failed", some "t1", some "boom", none⟩ (by decide)

/-! ## C2 — navigation candidate ladder -/

/-- `pat` is an infix of `s` (as character lists). -/
def charsHaveInfix (pat : List Char) : List Char → Bool
  | [] => pat.isEmpty
  | c :: t => pat.isPrefixOf (c :: t) || charsHaveInfix pat t

/-- `pat` occurs inside `s` as a substring. -/
def strContainsSub (s pat : String) : Bool :=
  charsHaveInfix pat.data s.data

/-- Success case of the Reddit navigation loop: the first passing candidate
resolves, after exactly `k + 1` attempts. -/
theorem redditNavLoop_success (sub : String) :
    ∀ (outs : List RCand) (k : Nat) (last : Option String) (att : Nat),
      (∀ c ∈ outs.take k, c.fails = true) →
      outs[k]? = some (RCand.loaded true) →
      redditNavLoop sub outs last att = (att + k + 1, .ok (att + k)) := by
  intro outs
  induction outs with
  | nil => intro k last att _ hk; simp at hk
  | cons c rest ih =>
    intro k last att htake hk
    cases k with
    | zero =>
      have hc : c = RCand.loaded true := by simpa using hk
      subst hc
      simp [redditNavLoop]
    | succ k' =>
      have hc : c.fails = true := htake c (by simp)
      have htake' : ∀ x ∈ rest.take k', x.fails = true := fun x hx => htake x (by simp [hx])
      have hk' : rest[k']? = some (RCand.loaded true) := by simpa using hk
      have e1 : att + 1 + k' = att + (k' + 1) := by omega
      cases c with
      | gotoErr m =>
        show redditNavLoop sub rest (some m) (att + 1) = _
        rw [ih k' (some m) (att + 1) htake' hk', e1]
      | loaded d =>
        cases d with
        | true => simp [RCand.fails] at hc
        | false =>
          show redditNavLoop sub rest (some "Reddit content not detected on page") (att + 1) = _
          rw [ih k' _ (att + 1) htake' hk', e1]

/-- Exhaustion case of the Reddit navigation loop: when every candidate
fails, the loop throws with the last candidate's failure message. -/
theorem redditNavLoop_exhaust (sub : String) :
    ∀ (outs : List RCand) (last : Option String) (att : Nat),
      (∀ c ∈ outs, c.fails = true) →
      redditNavLoop sub outs last att
        = (att + outs.length,
           .error (redditExhaustMsg sub ((outs.getLast?.map RCand.failMsg).or last))) := by
  intro outs
  induction outs with
  | nil => intro last att _; simp [redditNavLoop]
  | cons c rest ih =>
    intro last att hall
    have hc : c.fails = true := hall c (by simp)
    have hall' : ∀ x ∈ rest, x.fails = true := fun x hx => hall x (by simp [hx])
    have hlast : ((c :: rest).getLast?.map RCand.failMsg).or last
        = ((rest.getLast?.map RCand.failMsg).or (some c.failMsg)) := by
      cases rest with
      | nil => rfl
      | cons r rs =>
        rw [List.getLast?_cons_cons]
        cases hgl : (r :: rs).getLast? with
        | none => simp at hgl
        | some x => rfl
    rw [hlast]
    have e1 : att + 1 + rest.length = att + (rest.length + 1) := by omega
    cases c with
    | gotoErr m =>
      show redditNavLoop sub rest (some m) (att + 1) = _
      rw [ih (some m) (att + 1) hall', e1]
      rfl
    | loaded d =>
      cases d with
      | true => simp [RCand.fails] at hc
      | false =>
        show redditNavLoop sub rest (some "Reddit content not detected on page") (att + 1) = _
        rw [ih _ (att + 1) hall', e1]
        rfl

/-- Success case of the TikTok navigation loop. -/
theorem tiktokNavLoop_success :
    ∀ (cands : List (String × TCand)) (k : Nat) (url : String) (att : Nat),
      (∀ c ∈ cands.take k, c.2.fails = true) →
      cands[k]? = some (url, TCand.loaded true) →
      tiktokNavLoop cands att = (att + k + 1, .ok url) := by
  intro cands
  induction cands with
  | nil => intro k url att _ hk; simp at hk
  | cons c rest ih =>
    intro k url att htake hk
    obtain ⟨u, tc⟩ := c
    cases k with
    | zero =>
      have hc : u = url ∧ tc = TCand.loaded true := by simpa using hk
      obtain ⟨rfl, rfl⟩ := hc
      simp [tiktokNavLoop]
    | succ k' =>
      have hc : tc.fails = true := (htake (u, tc) (by simp) : _)
      have htake' : ∀ x ∈ rest.take k', x.2.fails = true := fun x hx => htake x (by simp [hx])
      have hk' : rest[k']? = some (url, TCand.loaded true) := by simpa using hk
      have e1 : att + 1 + k' = att + (k' + 1) := by omega
      cases tc with
      | gotoErr m =>
        show tiktokNavLoop rest (att + 1) = _
        rw [ih k' url (att + 1) htake' hk', e1]
      | loaded d =>
        cases d with
        | true => simp [TCand.fails] at hc
        | false =>
          show tiktokNavLoop rest (att + 1) = _
          rw [ih k' url (att + 1) htake' hk', e1]

/-- Exhaustion case of the TikTok navigation loop: the error is the fixed
message, independent of any candidate's own failure. -/
theorem tiktokNavLoop_exhaust :
    ∀ (cands : List (String × TCand)) (att : Nat),
      (∀ c ∈ cands, c.2.fails = true) →
      tiktokNavLoop cands att = (att + cands.length, .error tiktokExhaustMsg) := by
  intro cands
  induction cands with
  | nil => intro att _; simp [tiktokNavLoop]
  | cons c rest ih =>
    intro att hall
    obtain ⟨u, tc⟩ := c
    have hc : tc.fails = true := (hall (u, tc) (by simp) : _)
    have hall' : ∀ x ∈ rest, x.2.fails = true := fun x hx => hall x (by simp [hx])
    have e1 : att + 1 + rest.length = att + (rest.length + 1) := by omega
    cases tc with
    | gotoErr m =>
      show tiktokNavLoop rest (att + 1) = _
      rw [ih (att + 1) hall', e1]
      rfl
    | loaded d =>
      cases d with
      | true => simp [TCand.fails] at hc
      | false =>
        show tiktokNavLoop rest (att + 1) = _
        rw [ih (att + 1) hall', e1]
        rfl

/-- C2 counterexample: when every TikTok candidate fails with underlying
error `boom`, `navigateToTikTok` fails with the fixed message
`All TikTok URLs failed to load useful content`, which does not carry the
last underlying error's message. -/
theorem C2_counterexample :
    (navigateToTikTok (tiktokUrls.map (fun u => (u, TCand.gotoErr "boom")))).2
        = .error "All TikTok URLs failed to load useful content" ∧
      strContainsSub "All TikTok URLs failed to load useful content" "boom" = false := by
  constructor
  · rfl
  · decide

/-- C2 (amended): in both navigation ladders, if candidates `0..k-1` fail
(goto error, timeout, or failed success predicate) and candidate `k`
passes, navigation resolves with candidate `k` after exactly `k + 1`
attempts — candidates after `k` are never attempted. If all candidates
fail, `navigateToSubreddit` fails with an error carrying the last
underlying error's message, while `navigateToTikTok` fails with the fixed
message `All TikTok URLs failed to load useful content` that does not
carry the underlying error. -/
theorem C2_navigation_ladder :
    (∀ (sub : String) (outs : List RCand) (k : Nat),
      (∀ c ∈ outs.take k, c.fails = true) →
      outs[k]? = some (RCand.loaded true) →
      navigateToSubreddit sub outs = (k + 1, .ok k)) ∧
    (∀ (cands : List (String × TCand)) (k : Nat) (url : String),
      (∀ c ∈ cands.take k, c.2.fails = true) →
      cands[k]? = some (url, TCand.loaded true) →
      navigateToTikTok cands = (k + 1, .ok url)) ∧
    (∀ (sub : String) (outs : List RCand) (c : RCand),
      (∀ x ∈ outs, x.fails = true) →
      outs.getLast? = some c →
      (navigateToSubreddit sub outs).2 = .error (redditExhaustMsg sub (some c.failMsg))) ∧
    (∀ (cands : List (String × TCand)),
      (∀ c ∈ cands, c.2.fails = true) →
      navigateToTikTok cands = (cands.length, .error tiktokExhaustMsg)) := by
  refine ⟨?_, ?_, ?_, ?_⟩
  · intro sub outs k htake hk
    have h := redditNavLoop_success sub outs k none 0 htake hk
    simpa [navigateToSubreddit] using h
  · intro cands k url htake hk
    have h := tiktokNavLoop_success cands k url 0 htake hk
    simpa [navigateToTikTok] using h
  · intro sub outs c hall hlast
    have h := redditNavLoop_exhaust sub outs none 0 hall
    rw [navigateToSubreddit, h, hlast]
    rfl
  · intro cands hall
    have h := tiktokNavLoop_exhaust cands 0 hall
    simpa [navigateToTikTok] using h

/-- C2 witness: concrete two-candidate ladders (first fails, second
passes) and concrete exhausted ladders. -/
theorem C2_witness :
    navigateToSubreddit "programming" [RCand.gotoErr "timeout", RCand.loaded true]
        = (2, .ok 1) ∧
      navigateToTikTok [("https://www.tiktok.com/explore", TCand.gotoErr "x"),
          ("https://www.tiktok.com/tag/fyp", TCand.loaded true)]
        = (2, .ok "https://www.tiktok.com/tag/fyp") ∧
      (navigateToSubreddit "programming" [RCand.gotoErr "boom"]).2
        = .error (redditExhaustMsg "programming" (some "boom")) ∧
      navigateToTikTok [("https://www.tiktok.com/explore", TCand.loaded false)]
        = (1, .error tiktokExhaustMsg) :=
  ⟨C2_navigation_ladder.1 "programming" [RCand.gotoErr "timeout", RCand.loaded true] 1
      (by decide) rfl,
   C2_navigation_ladder.2.1 [("https://www.tiktok.com/explore", TCand.gotoErr "x"),
      ("https://www.tiktok.com/tag/fyp", TCand.loaded true)] 1 "https://www.tiktok.com/tag/fyp"
      (by decide) rfl,
   C2_navigation_ladder.2.2.1 "programming" [RCand.gotoErr "boom"] (RCand.gotoErr "boom")
      (by decide) rfl,
   C2_navigation_ladder.2.2.2 [("https://www.tiktok.com/explore", TCand.loaded false)]
      (by decide)⟩

/-! ## C3 — reported stored counts -/

/-- `updateScrapeJob` never touches the content table. -/
theorem updateScrapeJob_contents (db : DB) (jid : String) (u : JobUpdate) :
    (updateScrapeJob db jid u).contents = db.contents := by
  unfold updateScrapeJob
  by_cases he : u = JobUpdate.empty
  · rw [if_pos he]
  · rw [if_neg he]

/-- `saveScrapedContent` appends exactly one content row and leaves the job
table alone. -/
theorem saveScrapedContent_spec (db : DB) (c : NewContent) :
    (saveScrapedContent db c).2.contents.length = db.contents.length + 1 ∧
      (saveScrapedContent db c).2.jobs = db.jobs := by
  constructor
  · show (db.contents ++ [_]).length = _
    simp
  · rfl

/-- Store-loop accounting: `storedCount` grows by exactly the number of
successful saves, which is exactly the content-table growth, and is
bounded by the number of rows offered; the job table is untouched. -/
theorem storeLoopGo_spec (ok : List Bool) :
    ∀ (rows : List NewContent) (db : DB) (i cnt : Nat),
      (storeLoopGo ok db i cnt rows).1.contents.length + cnt
          = db.contents.length + (storeLoopGo ok db i cnt rows).2 ∧
        cnt ≤ (storeLoopGo ok db i cnt rows).2 ∧
        (storeLoopGo ok db i cnt rows).2 ≤ cnt + rows.length ∧
        (storeLoopGo ok db i cnt rows).1.jobs = db.jobs := by
  intro rows
  induction rows with
  | nil =>
    intro db i cnt
    exact ⟨by simp [storeLoopGo], Nat.le_refl _, by simp [storeLoopGo], rfl⟩
  | cons c rest ih =>
    intro db i cnt
    have hlen : (c :: rest).length = rest.length + 1 := rfl
    by_cases hok : ok.getD i true = true
    · have hred : storeLoopGo ok db i cnt (c :: rest)
          = storeLoopGo ok (saveScrapedContent db c).2 (i + 1) (cnt + 1) rest := by
        show (if ok.getD i true then
            storeLoopGo ok (saveScrapedContent db c).2 (i + 1) (cnt + 1) rest
          else storeLoopGo ok db (i + 1) cnt rest) = _
        rw [if_pos hok]
      rw [hred]
      obtain ⟨h1, h2, h3, h4⟩ := ih (saveScrapedContent db c).2 (i + 1) (cnt + 1)
      have hs := saveScrapedContent_spec db c
      obtain ⟨hs1, hs2⟩ := hs
      exact ⟨by omega, by omega, by omega, h4.trans hs2⟩
    · have hred : storeLoopGo ok db i cnt (c :: rest)
          = storeLoopGo ok db (i + 1) cnt rest := by
        show (if ok.getD i true then
            storeLoopGo ok (saveScrapedContent db c).2 (i + 1) (cnt + 1) rest
          else storeLoopGo ok db (i + 1) cnt rest) = _
        rw [if_neg hok]
      rw [hred]
      obtain ⟨h1, h2, h3, h4⟩ := ih db (i + 1) cnt
      exact ⟨h1, h2, by omega, h4⟩

/-- With the empty oracle (every save succeeds), all rows are stored. -/
theorem storeLoopGo_all_ok :
    ∀ (rows : List NewContent) (db : DB) (i cnt : Nat),
      (storeLoopGo [] db i cnt rows).2 = cnt + rows.length := by
  intro rows
  induction rows with
  | nil => intro db i cnt; simp [storeLoopGo]
  | cons c rest ih =>
    intro db i cnt
    show (storeLoopGo [] (saveScrapedContent db c).2 (i + 1) (cnt + 1) rest).2 = _
    rw [ih, List.length_cons]
    omega

/-- A result is a normal return (not a thrown error). -/
def isOkE {ρ : Type} : Except String ρ → Bool
  | .ok _ => true
  | .error _ => false

/-- Equation for the success path of `processRedditJob`. -/
theorem processRedditJob_ok_eq (db : DB) (jobId sub : String) (pages : Option Nat)
    (now : String) (env : RedditEnv)
    (hl : env.launchErr = none) (hi : env.initErr = none) (k : Nat)
    (hnav : (navigateToSubreddit sub env.navOuts).2 = Except.ok k)
    (hne : ((extractPosts env.extract (jsNumOr pages 10) now).1).isEmpty = false) :
    processRedditJob db jobId sub pages now env =
      ⟨.ok ⟨(extractPosts env.extract (jsNumOr pages 10) now).1.length,
            (storeLoop db (((extractPosts env.extract (jsNumOr pages 10) now).1).map
              (redditContentOf · now)) env.storeOk).2⟩,
        updateScrapeJob
          (storeLoop db (((extractPosts env.extract (jsNumOr pages 10) now).1).map
            (redditContentOf · now)) env.storeOk).1
          jobId
          ⟨some "completed", some now, none,
           some (serialize ((extractPosts env.extract (jsNumOr pages 10) now).1.length,
             (storeLoop db (((extractPosts env.extract (jsNumOr pages 10) now).1).map
               (redditContentOf · now)) env.storeOk).2))⟩,
        1, 1, true⟩ := by
  simp only [processRedditJob, hl, hi, hnav, hne, Bool.false_eq_true, if_false]

/-- Equation for the success path of `processTikTokJob`. -/
theorem processTikTokJob_ok_eq (db : DB) (jobId now : String) (env : TikTokEnv)
    (hl : env.launchErr = none) (hi : env.initErr = none) (url : String)
    (hnav : (navigateToTikTok env.navOuts).2 = Except.ok url) :
    processTikTokJob db jobId now env =
      ⟨.ok ⟨(extractTikTokData env.items).length,
            (storeLoop db ((extractTikTokData env.items).map
              (tiktokContentOf · now)) env.storeOk).2⟩,
        updateScrapeJob
          (storeLoop db ((extractTikTokData env.items).map
            (tiktokContentOf · now)) env.storeOk).1
          jobId
          ⟨some "completed", some now, none,
           some (serialize ((extractTikTokData env.items).length,
             (storeLoop db ((extractTikTokData env.items).map
               (tiktokContentOf · now)) env.storeOk).2))⟩,
        1, 1, true⟩ := by
  simp only [processTikTokJob, hl, hi, hnav]

/-- C3: whenever a Reddit or TikTok job returns a result summary, the
stored count it reports equals the number of `saveScrapedContent` calls
that actually appended a row (the content-table growth), and never exceeds
the number of units the strategy returned; and whether the job succeeds is
independent of the per-record store outcomes. -/
theorem C3_stored_count_accurate :
    (∀ (db : DB) (jobId sub : String) (pages : Option Nat) (now : String)
        (env : RedditEnv) (res : RedditResult),
      (processRedditJob db jobId sub pages now env).result = .ok res →
        res.postsStored + db.contents.length
            = (processRedditJob db jobId sub pages now env).db.contents.length ∧
          res.postsStored ≤ res.postsExtracted ∧
          res.postsExtracted = (extractPosts env.extract (jsNumOr pages 10) now).1.length) ∧
    (∀ (db : DB) (jobId now : String) (env : TikTokEnv) (res : TikTokResult),
      (processTikTokJob db jobId now env).result = .ok res →
        res.dataStored + db.contents.length
            = (processTikTokJob db jobId now env).db.contents.length ∧
          res.dataStored ≤ res.dataExtracted ∧
          res.dataExtracted = (extractTikTokData env.items).length) ∧
    (∀ (db : DB) (jobId sub : String) (pages : Option Nat) (now : String)
        (env : RedditEnv) (ok2 : List Bool),
      isOkE (processRedditJob db jobId sub pages now
          { env with storeOk := ok2 }).result
        = isOkE (processRedditJob db jobId sub pages now env).result) ∧
    (∀ (db : DB) (jobId now : String) (env : TikTokEnv) (ok2 : List Bool),
      isOkE (processTikTokJob db jobId now { env with storeOk := ok2 }).result
        = isOkE (processTikTokJob db jobId now env).result) := by
  refine ⟨?_, ?_, ?_, ?_⟩
  · intro db jobId sub pages now env res h
    cases hl : env.launchErr with
    | some m => simp only [processRedditJob, hl] at h; simp at h
    | none =>
    cases hi : env.initErr with
    | some m => simp only [processRedditJob, hl, hi] at h; simp at h
    | none =>
    cases hnav : (navigateToSubreddit sub env.navOuts).2 with
    | error m => simp only [processRedditJob, hl, hi, hnav] at h; simp at h
    | ok k =>
    cases hps : ((extractPosts env.extract (jsNumOr pages 10) now).1).isEmpty with
    | true =>
      simp only [processRedditJob, hl, hi, hnav, hps, if_true] at h
      simp at h
    | false =>
      rw [processRedditJob_ok_eq db jobId sub pages now env hl hi k hnav hps] at h ⊢
      have hres : res
          = ⟨(extractPosts env.extract (jsNumOr pages 10) now).1.length,
             (storeLoop db (((extractPosts env.extract (jsNumOr pages 10) now).1).map
               (redditContentOf · now)) env.storeOk).2⟩ := by
        have := h
        simp only [HOut.result] at this
        exact (Except.ok.inj this).symm
      subst hres
      obtain ⟨s1, s2, s3, _⟩ := storeLoopGo_spec env.storeOk
        (((extractPosts env.extract (jsNumOr pages 10) now).1).map (redditContentOf · now))
        db 0 0
      refine ⟨?_, ?_, rfl⟩
      · show (storeLoop db _ env.storeOk).2 + db.contents.length
          = (updateScrapeJob (storeLoop db _ env.storeOk).1 jobId _).contents.length
        rw [updateScrapeJob_contents]
        simp only [storeLoop]
        omega
      · show (storeLoop db _ env.storeOk).2 ≤ (extractPosts env.extract (jsNumOr pages 10) now).1.length
        have hml : (((extractPosts env.extract (jsNumOr pages 10) now).1).map
            (redditContentOf · now)).length
          = (extractPosts env.extract (jsNumOr pages 10) now).1.length := List.length_map ..
        simp only [storeLoop]
        omega
  · intro db jobId now env res h
    cases hl : env.launchErr with
    | some m => simp only [processTikTokJob, hl] at h; simp at h
    | none =>
    cases hi : env.initErr with
    | some m => simp only [processTikTokJob, hl, hi] at h; simp at h
    | none =>
    cases hnav : (navigateToTikTok env.navOuts).2 with
    | error m => simp only [processTikTokJob, hl, hi, hnav] at h; simp at h
    | ok url =>
      rw [processTikTokJob_ok_eq db jobId now env hl hi url hnav] at h ⊢
      have hres : res
          = ⟨(extractTikTokData env.items).length,
             (storeLoop db ((extractTikTokData env.items).map
               (tiktokContentOf · now)) env.storeOk).2⟩ := by
        have := h
        simp only [HOut.result] at this
        exact (Except.ok.inj this).symm
      subst hres
      obtain ⟨s1, s2, s3, _⟩ := storeLoopGo_spec env.storeOk
        ((extractTikTokData env.items).map (tiktokContentOf · now)) db 0 0
      refine ⟨?_, ?_, rfl⟩
      · show (storeLoop db _ env.storeOk).2 + db.contents.length
          = (updateScrapeJob (storeLoop db _ env.storeOk).1 jobId _).contents.length
        rw [updateScrapeJob_contents]
        simp only [storeLoop]
        omega
      · show (storeLoop db _ env.storeOk).2 ≤ (extractTikTokData env.items).length
        have hml : ((extractTikTokData env.items).map (tiktokContentOf · now)).length
          = (extractTikTokData env.items).length := List.length_map ..
        simp only [storeLoop]
        omega
  · intro db jobId sub pages now env ok2
    cases hl : env.launchErr with
    | some m => simp [processRedditJob, hl, isOkE]
    | none =>
    cases hi : env.initErr with
    | some m => simp [processRedditJob, hl, hi, isOkE]
    | none =>
    cases hnav : (navigateToSubreddit sub env.navOuts).2 with
    | error m => simp [processRedditJob, hl, hi, hnav, isOkE]
    | ok k =>
      cases hps : ((extractPosts env.extract (jsNumOr pages 10) now).1).isEmpty <;>
        simp [processRedditJob, hl, hi, hnav, hps, isOkE]
  · intro db jobId now env ok2
    cases hl : env.launchErr with
    | some m => simp [processTikTokJob, hl, isOkE]
    | none =>
    cases hi : env.initErr with
    | some m => simp [processTikTokJob, hl, hi, isOkE]
    | none =>
    cases hnav : (navigateToTikTok env.navOuts).2 with
    | error m => simp [processTikTokJob, hl, hi, hnav, isOkE]
    | ok url => simp [processTikTokJob, hl, hi, hnav, isOkE]

/-- Inputs for the C3 witness: a two-post batch where the second store
write fails. -/
def envC3 : RedditEnv :=
  ⟨none, none, [RCand.loaded true],
   ⟨none,
    [PostEl.good ⟨"p1", "T1", "alice", "programming", 5, 3, "t0",
       "https://old.reddit.com/p1", "text", none, none⟩,
     PostEl.good ⟨"p2", "T2", "bob", "programming", 1, 0, "t0",
       "https://old.reddit.com/p2", "text", none, none⟩],
    false, []⟩,
   [true, false]⟩

/-- C3 witness: two posts extracted, one store failure, reported stored
count 1. -/
theorem C3_witness :
    (⟨2, 1⟩ : RedditResult).postsStored + DB.empty.contents.length
        = (processRedditJob DB.empty "j1" "programming" none "t1" envC3).db.contents.length ∧
      (⟨2, 1⟩ : RedditResult).postsStored ≤ (⟨2, 1⟩ : RedditResult).postsExtracted ∧
      (⟨2, 1⟩ : RedditResult).postsExtracted
        = (extractPosts envC3.extract (jsNumOr none 10) "t1").1.length :=
  C3_stored_count_accurate.1 DB.empty "j1" "programming" none "t1" envC3 ⟨2, 1⟩ rfl

/-! ## C1 — failure paths and the `failed` row update -/

/-- C1 counterexample: a quotes job whose scraping throws `boom` propagates
the exception while its database row is left at status `pending` — it is
not updated to `failed`. -/
theorem C1_counterexample :
    (processQuotesJob
        ⟨[⟨1, "q1", "scrape-quotes", "pending", "t0", none, none, none⟩], 2, [], 1⟩
        "q1" "t1"
        ⟨none, none, some "boom", 0, "", "", none, "http://quotes.toscrape.com"⟩).result
      = .error "boom" ∧
    getScrapeJob
        (processQuotesJob
          ⟨[⟨1, "q1", "scrape-quotes", "pending", "t0", none, none, none⟩], 2, [], 1⟩
          "q1" "t1"
          ⟨none, none, some "boom", 0, "", "", none, "http://quotes.toscrape.com"⟩).db
        "q1"
      = some ⟨1, "q1", "scrape-quotes", "pending", "t0", none, none, none⟩ ∧
    some "pending" ≠ some "failed" := by
  refine ⟨rfl, rfl, by simp⟩

/-- C1 (amended): the Reddit and TikTok handlers update the job row to
`failed` with `error_message` set from the thrown error's message before
every exception propagates; the quotes handler and the unknown-type branch
of the router propagate their exception with the store unchanged. -/
theorem C1_failure_row_updates :
    (∀ (db : DB) (jobId sub : String) (pages : Option Nat) (now : String)
        (env : RedditEnv) (m : String),
      (processRedditJob db jobId sub pages now env).result = .error m →
        (processRedditJob db jobId sub pages now env).db
            = updateScrapeJob db jobId (failedUpdate now m) ∧
          getScrapeJob (processRedditJob db jobId sub pages now env).db jobId
            = (getScrapeJob db jobId).map (applyUpdate (failedUpdate now m))) ∧
    (∀ (db : DB) (jobId now : String) (env : TikTokEnv) (m : String),
      (processTikTokJob db jobId now env).result = .error m →
        (processTikTokJob db jobId now env).db
            = updateScrapeJob db jobId (failedUpdate now m) ∧
          getScrapeJob (processTikTokJob db jobId now env).db jobId
            = (getScrapeJob db jobId).map (applyUpdate (failedUpdate now m))) ∧
    (∀ (db : DB) (jobId now : String) (env : QuotesEnv) (m : String),
      (processQuotesJob db jobId now env).result = .error m →
        (processQuotesJob db jobId now env).db = db) ∧
    (∀ (db : DB) (jobId jtype : String) (qenv : QuotesEnv) (sub : String)
        (pages : Option Nat) (renv : RedditEnv) (tenv : TikTokEnv) (now : String),
      jtype ∉ JobTypeValues →
        processScrapeJob db jobId jtype qenv sub pages renv tenv now
          = ⟨.error ("Unknown job type: " ++ jtype), db, 0, 0⟩) := by
  refine ⟨?_, ?_, ?_, ?_⟩
  · intro db jobId sub pages now env m h
    cases hl : env.launchErr with
    | some m0 =>
      simp only [processRedditJob, hl] at h ⊢
      obtain rfl : m0 = m := by simpa using h
      exact ⟨rfl, getScrapeJob_update db jobId (failedUpdate now _)⟩
    | none =>
    cases hi : env.initErr with
    | some m0 =>
      simp only [processRedditJob, hl, hi] at h ⊢
      obtain rfl : m0 = m := by simpa using h
      exact ⟨rfl, getScrapeJob_update db jobId (failedUpdate now _)⟩
    | none =>
    cases hnav : (navigateToSubreddit sub env.navOuts).2 with
    | error m0 =>
      simp only [processRedditJob, hl, hi, hnav] at h ⊢
      obtain rfl : m0 = m := by simpa using h
      exact ⟨rfl, getScrapeJob_update db jobId (failedUpdate now _)⟩
    | ok k =>
    cases hps : ((extractPosts env.extract (jsNumOr pages 10) now).1).isEmpty with
    | true =>
      simp only [processRedditJob, hl, hi, hnav, hps, if_true] at h ⊢
      obtain rfl : "No posts found - subreddit might be empty or private" = m := by
        simpa using h
      exact ⟨rfl, getScrapeJob_update db jobId (failedUpdate now _)⟩
    | false =>
      rw [processRedditJob_ok_eq db jobId sub pages now env hl hi k hnav hps] at h
      simp only [HOut.result] at h
      exact absurd h (by simp)
  · intro db jobId now env m h
    cases hl : env.launchErr with
    | some m0 =>
      simp only [processTikTokJob, hl] at h ⊢
      obtain rfl : m0 = m := by simpa using h
      exact ⟨rfl, getScrapeJob_update db jobId (failedUpdate now _)⟩
    | none =>
    cases hi : env.initErr with
    | some m0 =>
      simp only [processTikTokJob, hl, hi] at h ⊢
      obtain rfl : m0 = m := by simpa using h
      exact ⟨rfl, getScrapeJob_update db jobId (failedUpdate now _)⟩
    | none =>
    cases hnav : (navigateToTikTok env.navOuts).2 with
    | error m0 =>
      simp only [processTikTokJob, hl, hi, hnav] at h ⊢
      obtain rfl : m0 = m := by simpa using h
      exact ⟨rfl, getScrapeJob_update db jobId (failedUpdate now _)⟩
    | ok url =>
      rw [processTikTokJob_ok_eq db jobId now env hl hi url hnav] at h
      simp only [HOut.result] at h
      exact absurd h (by simp)
  · intro db jobId now env m h
    cases hl : env.launchErr with
    | some m0 => simp only [processQuotesJob, hl]
    | none =>
    cases hi : env.initErr with
    | some m0 => simp only [processQuotesJob, hl, hi]
    | none =>
    cases hs : env.scrapeErr with
    | some m0 => simp only [processQuotesJob, hl, hi, hs]
    | none =>
    cases hv : env.saveErr with
    | some m0 => simp only [processQuotesJob, hl, hi, hs, hv]
    | none =>
      simp only [processQuotesJob, hl, hi, hs, hv] at h
      exact absurd h (by simp)
  · intro db jobId jtype qenv sub pages renv tenv now hmem
    have h1 : (jtype == "scrape-quotes") = false := by
      simp only [JobTypeValues] at hmem
      simp at hmem ⊢
      exact hmem.1
    have h2 : (jtype == "scrape-reddit") = false := by
      simp only [JobTypeValues] at hmem
      simp at hmem ⊢
      exact hmem.2.1
    have h3 : (jtype == "scrape-tiktok") = false := by
      simp only [JobTypeValues] at hmem
      simp at hmem ⊢
      exact hmem.2.2
    simp only [processScrapeJob, h1, h2, h3, Bool.false_eq_true, if_false]

/-- C1 witness: a Reddit job whose navigation ladder is exhausted marks its
row `failed` with the navigation error before rethrowing. -/
theorem C1_witness :
    (processRedditJob
        ⟨[⟨1, "r1", "scrape-reddit", "pending", "t0", none, none, none⟩], 2, [], 1⟩
        "r1" "programming" none "t1"
        ⟨none, none, [RCand.gotoErr "net down", RCand.gotoErr "net down"],
         ⟨none, [], false, []⟩, []⟩).db
      = updateScrapeJob
          ⟨[⟨1, "r1", "scrape-reddit", "pending", "t0", none, none, none⟩], 2, [], 1⟩
          "r1" (failedUpdate "t1" "Could not access r/programming. net down") :=
  (C1_failure_row_updates.1
    ⟨[⟨1, "r1", "scrape-reddit", "pending", "t0", none, none, none⟩], 2, [], 1⟩
    "r1" "programming" none "t1"
    ⟨none, none, [RCand.gotoErr "net down", RCand.gotoErr "net down"],
     ⟨none, [], false, []⟩, []⟩
    "Could not access r/programming. net down" rfl).1

/-! ## C9 — browser session discipline -/

/-- C9 counterexample: a Reddit job whose browser launch throws opens no
session at all (while `close()` is still invoked), so "exactly one browser
session is opened" fails on the init-failure exit path. -/
theorem C9_counterexample :
    (processRedditJob DB.empty "j1" "programming" none "t1"
        ⟨some "browser failed to launch", none, [], ⟨none, [], false, []⟩, []⟩).opens = 0 ∧
      (processRedditJob DB.empty "j1" "programming" none "t1"
        ⟨some "browser failed to launch", none, [], ⟨none, [], false, []⟩, []⟩).closeCalls = 1 ∧
      (processRedditJob DB.empty "j1" "programming" none "t1"
        ⟨some "browser failed to launch", none, [], ⟨none, [], false, []⟩, []⟩).result
        = .error "browser failed to launch" :=
  ⟨rfl, rfl, rfl⟩

/-- C9 (amended): on every exit path of every handler — success, thrown
exception at any stage, or early return — the scraper's `close()` is
invoked exactly once, at most one browser session is opened (none when the
launch itself throws), and the browser is closed iff a session was
opened. -/
theorem C9_session_discipline :
    (∀ (db : DB) (jobId now : String) (env : QuotesEnv),
      (processQuotesJob db jobId now env).closeCalls = 1 ∧
        (processQuotesJob db jobId now env).opens ≤ 1 ∧
        ((processQuotesJob db jobId now env).browserClosed
          = ((processQuotesJob db jobId now env).opens == 1))) ∧
    (∀ (db : DB) (jobId sub : String) (pages : Option Nat) (now : String)
        (env : RedditEnv),
      (processRedditJob db jobId sub pages now env).closeCalls = 1 ∧
        (processRedditJob db jobId sub pages now env).opens ≤ 1 ∧
        ((processRedditJob db jobId sub pages now env).browserClosed
          = ((processRedditJob db jobId sub pages now env).opens == 1))) ∧
    (∀ (db : DB) (jobId now : String) (env : TikTokEnv),
      (processTikTokJob db jobId now env).closeCalls = 1 ∧
        (processTikTokJob db jobId now env).opens ≤ 1 ∧
        ((processTikTokJob db jobId now env).browserClosed
          = ((processTikTokJob db jobId now env).opens == 1))) := by
  refine ⟨?_, ?_, ?_⟩
  · intro db jobId now env
    cases hl : env.launchErr with
    | some m => simp [processQuotesJob, hl]
    | none =>
    cases hi : env.initErr with
    | some m => simp [processQuotesJob, hl, hi]
    | none =>
    cases hs : env.scrapeErr with
    | some m => simp [processQuotesJob, hl, hi, hs]
    | none =>
    cases hv : env.saveErr with
    | some m => simp [processQuotesJob, hl, hi, hs, hv]
    | none => simp [processQuotesJob, hl, hi, hs, hv]
  · intro db jobId sub pages now env
    cases hl : env.launchErr with
    | some m => simp [processRedditJob, hl]
    | none =>
    cases hi : env.initErr with
    | some m => simp [processRedditJob, hl, hi]
    | none =>
    cases hnav : (navigateToSubreddit sub env.navOuts).2 with
    | error m => simp [processRedditJob, hl, hi, hnav]
    | ok k =>
      cases hps : ((extractPosts env.extract (jsNumOr pages 10) now).1).isEmpty <;>
        simp [processRedditJob, hl, hi, hnav, hps]
  · intro db jobId now env
    cases hl : env.launchErr with
    | some m => simp [processTikTokJob, hl]
    | none =>
    cases hi : env.initErr with
    | some m => simp [processTikTokJob, hl, hi]
    | none =>
    cases hnav : (navigateToTikTok env.navOuts).2 with
    | error m => simp [processTikTokJob, hl, hi, hnav]
    | ok url => simp [processTikTokJob, hl, hi, hnav]

/-! ## C6 — one malformed unit never aborts the batch -/

/-- A batch every element of which parses cleanly loses nothing. -/
theorem filterMap_parseEl_all_good (l : List PostEl) (h : ∀ e ∈ l, e ≠ PostEl.bad) :
    (l.filterMap parseEl).length = l.length := by
  induction l with
  | nil => rfl
  | cons e t ih =>
    cases e with
    | bad => exact absurd rfl (h PostEl.bad (by simp))
    | good p =>
      show (p :: t.filterMap parseEl).length = t.length + 1
      rw [List.length_cons, ih (fun x hx => h x (by simp [hx]))]

/-- Under the item bound, the extraction loop is `filterMap` over the whole
element list. -/
theorem extractLoop_of_le (els : List PostEl) (maxPosts : Nat)
    (h : els.length ≤ maxPosts) :
    extractLoop els maxPosts = els.filterMap parseEl := by
  unfold extractLoop
  rw [List.take_of_length_le h]

/-- C6: when exactly one element of the batch throws during per-unit
parsing (batch shape `pre ++ [bad] ++ suf`, all others clean), the primary
extractor returns exactly the other `N - 1` units in order; with working
stores, all of them are persisted, the job's result reports `N - 1`
extracted and stored, and the job row is marked `completed`. -/
theorem C6_single_parse_error_skipped (db : DB) (jobId sub : String)
    (pages : Option Nat) (now : String) (env : RedditEnv)
    (pre suf : List PostEl) (k : Nat)
    (hl : env.launchErr = none) (hi : env.initErr = none)
    (hnav : (navigateToSubreddit sub env.navOuts).2 = Except.ok k)
    (hb : env.extract.batchErr = none)
    (hsplit : env.extract.els = pre ++ PostEl.bad :: suf)
    (hpre : ∀ e ∈ pre, e ≠ PostEl.bad)
    (hsuf : ∀ e ∈ suf, e ≠ PostEl.bad)
    (hmax : env.extract.els.length ≤ jsNumOr pages 10)
    (hpos : 1 ≤ pre.length + suf.length)
    (hok : env.storeOk = []) :
    (extractPosts env.extract (jsNumOr pages 10) now).1
        = pre.filterMap parseEl ++ suf.filterMap parseEl ∧
      (extractPosts env.extract (jsNumOr pages 10) now).1.length
        = pre.length + suf.length ∧
      (∃ res : RedditResult,
        (processRedditJob db jobId sub pages now env).result = .ok res ∧
          res.postsExtracted = pre.length + suf.length ∧
          res.postsStored = pre.length + suf.length) ∧
      (processRedditJob db jobId sub pages now env).db.contents.length
        = db.contents.length + (pre.length + suf.length) ∧
      (∀ r : ScrapeJobRow, getScrapeJob db jobId = some r →
        (getScrapeJob (processRedditJob db jobId sub pages now env).db jobId).map
            ScrapeJobRow.status
          = some "completed") := by
  have hposts : (extractPosts env.extract (jsNumOr pages 10) now).1
      = pre.filterMap parseEl ++ suf.filterMap parseEl := by
    unfold extractPosts
    rw [hb]
    show extractLoop env.extract.els (jsNumOr pages 10) = _
    rw [extractLoop_of_le env.extract.els (jsNumOr pages 10) hmax, hsplit,
      List.filterMap_append]
    rfl
  have hlen : (extractPosts env.extract (jsNumOr pages 10) now).1.length
      = pre.length + suf.length := by
    rw [hposts, List.length_append, filterMap_parseEl_all_good pre hpre,
      filterMap_parseEl_all_good suf hsuf]
  have hne : ((extractPosts env.extract (jsNumOr pages 10) now).1).isEmpty = false := by
    have h0 : (extractPosts env.extract (jsNumOr pages 10) now).1 ≠ [] := by
      intro h0
      rw [h0] at hlen
      simp at hlen
      omega
    simpa using h0
  have heq := processRedditJob_ok_eq db jobId sub pages now env hl hi k hnav hne
  obtain ⟨s1, s2, s3, s4⟩ := storeLoopGo_spec env.storeOk
    (((extractPosts env.extract (jsNumOr pages 10) now).1).map (redditContentOf · now))
    db 0 0
  have hstored : (storeLoop db
      (((extractPosts env.extract (jsNumOr pages 10) now).1).map (redditContentOf · now))
      env.storeOk).2 = pre.length + suf.length := by
    show (storeLoopGo env.storeOk db 0 0 _).2 = _
    rw [hok, storeLoopGo_all_ok, List.length_map, hlen]
    omega
  refine ⟨hposts, hlen, ?_, ?_, ?_⟩
  · refine ⟨⟨(extractPosts env.extract (jsNumOr pages 10) now).1.length,
      (storeLoop db (((extractPosts env.extract (jsNumOr pages 10) now).1).map
        (redditContentOf · now)) env.storeOk).2⟩, ?_, hlen, hstored⟩
    rw [heq]
  · rw [heq]
    show (updateScrapeJob _ jobId _).contents.length = _
    rw [updateScrapeJob_contents]
    have : (storeLoop db
        (((extractPosts env.extract (jsNumOr pages 10) now).1).map (redditContentOf · now))
        env.storeOk).2 = pre.length + suf.length := hstored
    simp only [storeLoop] at this ⊢
    omega
  · intro r hr
    rw [heq]
    show ((getScrapeJob (updateScrapeJob _ jobId _) jobId).map ScrapeJobRow.status) = _
    rw [getScrapeJob_update]
    have hjobs : getScrapeJob (storeLoop db
        (((extractPosts env.extract (jsNumOr pages 10) now).1).map (redditContentOf · now))
        env.storeOk).1 jobId = getScrapeJob db jobId := by
      unfold getScrapeJob
      show ((storeLoopGo env.storeOk db 0 0 _).1.jobs.find? _) = _
      rw [s4]
    rw [hjobs, hr]
    rfl

/-- Inputs for the C6 witness: a three-element batch whose middle element
throws during parsing. -/
def envC6 : RedditEnv :=
  ⟨none, none, [RCand.loaded true],
   ⟨none,
    [PostEl.good ⟨"p1", "T1", "alice", "programming", 5, 3, "t0",
       "https://old.reddit.com/p1", "text", none, none⟩,
     PostEl.bad,
     PostEl.good ⟨"p3", "T3", "carol", "programming", 2, 1, "t0",
       "https://old.reddit.com/p3", "text", none, none⟩],
    false, []⟩,
   []⟩

/-- C6 witness: of 3 units with 1 malformed, 2 are extracted, stored, and
the job row on a one-row store is marked completed. -/
theorem C6_witness :
    (∃ res : RedditResult,
      (processRedditJob
          ⟨[⟨1, "r6", "scrape-reddit", "pending", "t0", none, none, none⟩], 2, [], 1⟩
          "r6" "programming" none "t1" envC6).result = .ok res ∧
        res.postsExtracted = 2 ∧ res.postsStored = 2) ∧
      (∀ r : ScrapeJobRow,
        getScrapeJob
            ⟨[⟨1, "r6", "scrape-reddit", "pending", "t0", none, none, none⟩], 2, [], 1⟩
            "r6" = some r →
        (getScrapeJob (processRedditJob
            ⟨[⟨1, "r6", "scrape-reddit", "pending", "t0", none, none, none⟩], 2, [], 1⟩
            "r6" "programming" none "t1" envC6).db "r6").map ScrapeJobRow.status
          = some "completed") := by
  have h := C6_single_parse_error_skipped
    ⟨[⟨1, "r6", "scrape-reddit", "pending", "t0", none, none, none⟩], 2, [], 1⟩
    "r6" "programming" none "t1" envC6
    [PostEl.good ⟨"p1", "T1", "alice", "programming", 5, 3, "t0",
       "https://old.reddit.com/p1", "text", none, none⟩]
    [PostEl.good ⟨"p3", "T3", "carol", "programming", 2, 1, "t0",
       "https://old.reddit.com/p3", "text", none, none⟩]
    0 rfl rfl rfl rfl rfl (by decide) (by decide) (by decide) (by decide) rfl
  exact ⟨h.2.2.1, h.2.2.2.2⟩

/-! ## C7 — the degraded fallback extractor -/

/-- C7 counterexample: with `maxItems = 2` and five title anchors on the
page, a batch-level primary failure makes `extractPosts` return 5 fallback
units — more than the `maxItems` bound. -/
theorem C7_counterexample :
    (extractPosts
        ⟨some "batch boom", [], false,
         [⟨"t1", "h1"⟩, ⟨"t2", "h2"⟩, ⟨"t3", "h3"⟩, ⟨"t4", "h4"⟩, ⟨"t5", "h5"⟩]⟩
        2 "t0").1.length = 5 ∧
      (extractPosts
        ⟨some "batch boom", [], false,
         [⟨"t1", "h1"⟩, ⟨"t2", "h2"⟩, ⟨"t3", "h3"⟩, ⟨"t4", "h4"⟩, ⟨"t5", "h5"⟩]⟩
        2 "t0").2 = true ∧
      ¬ (5 : Nat) ≤ 2 := by
  refine ⟨rfl, rfl, by omega⟩

/-- C7 (amended): the fallback extractor runs exactly when the primary
extraction throws at the batch level (never for a per-unit failure), and it
returns at most **5** coarse units — the `maxItems` bound is ignored by the
fallback — whose identifiers are the synthesized `fallback_<index>`, whose
author and subreddit are `unknown`, and whose upvotes and comments are
zero. -/
theorem C7_fallback_contract :
    (∀ (env : ExtractEnv) (maxPosts : Nat) (now : String),
      (extractPosts env maxPosts now).2 = true ↔ env.batchErr ≠ none) ∧
    (∀ (env : ExtractEnv) (maxPosts : Nat) (now : String),
      env.batchErr = none →
      (extractPosts env maxPosts now).1 = extractLoop env.els maxPosts) ∧
    (∀ (fbErr : Bool) (anchors : List TitleAnchor) (now : String),
      (fallbackExtraction fbErr anchors now).length ≤ 5) ∧
    (∀ (fbErr : Bool) (anchors : List TitleAnchor) (now : String) (i : Nat)
        (p : RedditPost),
      (fallbackExtraction fbErr anchors now)[i]? = some p →
        p.id = "fallback_" ++ toString i ∧ p.upvotes = 0 ∧ p.comments = 0 ∧
          p.author = "unknown" ∧ p.subreddit = "unknown") := by
  refine ⟨?_, ?_, ?_, ?_⟩
  · intro env maxPosts now
    cases hb : env.batchErr with
    | none => simp [extractPosts, hb]
    | some m => simp [extractPosts, hb]
  · intro env maxPosts now hb
    simp [extractPosts, hb]
  · intro fbErr anchors now
    cases fbErr with
    | true => simp [fallbackExtraction]
    | false =>
      show ((anchors.take 5).enum.map _).length ≤ 5
      rw [List.length_map, List.enum_length, List.length_take]
      omega
  · intro fbErr anchors now i p hp
    cases fbErr with
    | true => simp [fallbackExtraction] at hp
    | false =>
      have hp' : ((anchors.take 5).enum.map (fun q =>
          ({ id := "fallback_" ++ toString q.1, title := q.2.titleText,
             author := "unknown", subreddit := "unknown", upvotes := 0,
             comments := 0, created := now, url := q.2.href, postType := "text",
             content := none, linkUrl := none } : RedditPost)))[i]? = some p := hp
      rw [List.getElem?_map, List.getElem?_enum] at hp'
      cases ha : (anchors.take 5)[i]? with
      | none => rw [ha] at hp'; simp at hp'
      | some a =>
        rw [ha] at hp'
        simp only [Option.map_some'] at hp'
        have hpa := (Option.some_inj.1 hp').symm
        rw [hpa]
        exact ⟨rfl, rfl, rfl, rfl, rfl⟩

/-- C7 witness: one title anchor yields the synthesized `fallback_0` unit
with zeroed numeric fields. -/
theorem C7_witness :
    (⟨"fallback_0", "Title", "unknown", "unknown", 0, 0, "t0", "/r/x", "text",
        none, none⟩ : RedditPost).id = "fallback_" ++ toString 0 ∧
      (⟨"fallback_0", "Title", "unknown", "unknown", 0, 0, "t0", "/r/x", "text",
        none, none⟩ : RedditPost).upvotes = 0 ∧
      (⟨"fallback_0", "Title", "unknown", "unknown", 0, 0, "t0", "/r/x", "text",
        none, none⟩ : RedditPost).comments = 0 ∧
      (⟨"fallback_0", "Title", "unknown", "unknown", 0, 0, "t0", "/r/x", "text",
        none, none⟩ : RedditPost).author = "unknown" ∧
      (⟨"fallback_0", "Title", "unknown", "unknown", 0, 0, "t0", "/r/x", "text",
        none, none⟩ : RedditPost).subreddit = "unknown" :=
  C7_fallback_contract.2.2.2 false [⟨"Title", "/r/x"⟩] "t0" 0
    ⟨"fallback_0", "Title", "unknown", "unknown", 0, 0, "t0", "/r/x", "text",
      none, none⟩ rfl

/-! ## C5 — job status lifecycle -/

/-- One write against the job table. -/
inductive Op where
  | create (jd : NewJob)
  | update (jobId : String) (u : JobUpdate)

/-- Apply one operation to the store. -/
def applyOp (db : DB) : Op → DB
  | .create jd => (createScrapeJob db jd).2
  | .update jid u => updateScrapeJob db jid u

/-- Run a list of operations left to right. -/
def runOps (db : DB) : List Op → DB
  | [] => db
  | op :: rest => runOps (applyOp db op) rest

/-- The job-table writes the program actually issues: every call site of
`createScrapeJob` (the three API routes in the server) passes status
`pending`, and every call site of `updateScrapeJob` (the worker handlers)
provides `status`, always as `completed` or `failed`. -/
def progOp : Op → Prop
  | .create jd => jd.status = "pending"
  | .update _ u => u.status = some "completed" ∨ u.status = some "failed"

/-- One program step never loses a row and never sends a row back to
`pending` once it has left it. -/
theorem applyOp_status_step (db : DB) (op : Op) (jid : String) (r : ScrapeJobRow)
    (hprog : progOp op) (hfind : getScrapeJob db jid = some r) :
    ∃ r', getScrapeJob (applyOp db op) jid = some r' ∧
      (r.status ≠ "pending" → r'.status ≠ "pending") := by
  cases op with
  | create jd =>
    exact ⟨r, getScrapeJob_create_of_some db jd jid r hfind, fun h => h⟩
  | update jid2 u =>
    by_cases hj : jid = jid2
    · subst hj
      refine ⟨applyUpdate u r, ?_, ?_⟩
      · show getScrapeJob (updateScrapeJob db jid u) jid = some (applyUpdate u r)
        rw [getScrapeJob_update, hfind]
        rfl
      · intro _
        show (applyUpdate u r).status ≠ "pending"
        cases hprog with
        | inl hc =>
          show u.status.getD r.status ≠ "pending"
          rw [hc]
          simp
        | inr hc =>
          show u.status.getD r.status ≠ "pending"
          rw [hc]
          simp
    · refine ⟨r, ?_, fun h => h⟩
      show getScrapeJob (updateScrapeJob db jid2 u) jid = some r
      rw [getScrapeJob_update_ne db jid jid2 u hj]
      exact hfind

/-- Along any program trace, a row that has left `pending` never returns
to it. -/
theorem runOps_no_reenter :
    ∀ (ops : List Op), (∀ op ∈ ops, progOp op) →
    ∀ (db : DB) (jid : String) (r : ScrapeJobRow),
      getScrapeJob db jid = some r → r.status ≠ "pending" →
      ∃ r', getScrapeJob (runOps db ops) jid = some r' ∧ r'.status ≠ "pending" := by
  intro ops
  induction ops with
  | nil => intro _ db jid r hf hs; exact ⟨r, hf, hs⟩
  | cons op rest ih =>
    intro hprog db jid r hf hs
    obtain ⟨r1, hf1, hs1⟩ := applyOp_status_step db op jid r (hprog op (by simp)) hf
    exact ih (fun x hx => hprog x (by simp [hx])) (applyOp db op) jid r1 hf1 (hs1 hs)

/-- Program steps keep every row's status inside the transition graph's
node set. -/
theorem applyOp_status_closed (db : DB) (op : Op) (hprog : progOp op)
    (hinv : ∀ r ∈ db.jobs,
      r.status = "pending" ∨ r.status = "completed" ∨ r.status = "failed") :
    ∀ r ∈ (applyOp db op).jobs,
      r.status = "pending" ∨ r.status = "completed" ∨ r.status = "failed" := by
  cases op with
  | create jd =>
    intro r hr
    show _ ∨ _ ∨ _
    cases hf : getScrapeJob db jd.job_id with
    | some row =>
      rw [show applyOp db (Op.create jd) = (createScrapeJob db jd).2 from rfl,
        createScrapeJob_of_some db jd row hf] at hr
      exact hinv r hr
    | none =>
      rw [show applyOp db (Op.create jd) = (createScrapeJob db jd).2 from rfl,
        createScrapeJob_of_none db jd hf] at hr
      rcases List.mem_append.1 hr with hold | hnew
      · exact hinv r hold
      · have : r = newJobRow db jd := by simpa using hnew
        rw [this]
        exact Or.inl hprog
  | update jid u =>
    intro r hr
    show _ ∨ _ ∨ _
    by_cases he : u = JobUpdate.empty
    · have h0 : applyOp db (Op.update jid u) = db := by
        show updateScrapeJob db jid u = db
        unfold updateScrapeJob
        rw [if_pos he]
      rw [h0] at hr
      exact hinv r hr
    · have h0 : applyOp db (Op.update jid u)
          = { db with
              jobs := db.jobs.map (fun x => if x.job_id == jid then applyUpdate u x else x) } :=
        updateScrapeJob_eq db jid u he
      rw [h0] at hr
      obtain ⟨r0, hr0, rfl⟩ := List.mem_map.1 hr
      by_cases hc : (r0.job_id == jid) = true
      · rw [if_pos hc]
        cases hprog with
        | inl hs =>
          refine Or.inr (Or.inl ?_)
          show u.status.getD r0.status = "completed"
          rw [hs]
          rfl
        | inr hs =>
          refine Or.inr (Or.inr ?_)
          show u.status.getD r0.status = "failed"
          rw [hs]
          rfl
      · rw [if_neg hc]
        exact hinv r0 hr0

/-- Along any program trace, every row's status stays in the node set. -/
theorem runOps_status_closed :
    ∀ (ops : List Op), (∀ op ∈ ops, progOp op) →
    ∀ (db : DB),
      (∀ r ∈ db.jobs,
        r.status = "pending" ∨ r.status = "completed" ∨ r.status = "failed") →
      ∀ r ∈ (runOps db ops).jobs,
        r.status = "pending" ∨ r.status = "completed" ∨ r.status = "failed" := by
  intro ops
  induction ops with
  | nil => intro _ db hinv; exact hinv
  | cons op rest ih =>
    intro hprog db hinv
    exact ih (fun x hx => hprog x (by simp [hx])) (applyOp db op)
      (applyOp_status_closed db op (hprog op (by simp)) hinv)

/-- C5: rows are created `pending`; every status a program write can leave
behind is `pending`, `completed` or `failed`; and a job never re-enters
`pending` after leaving it. Program writes are exactly those of the code's
call sites (`progOp`): creation with status `pending`, updates with status
`completed` or `failed`. -/
theorem C5_status_transitions :
    (∀ (db : DB) (jd : NewJob), progOp (Op.create jd) →
      ∀ r ∈ ((createScrapeJob db jd).2).jobs, r ∈ db.jobs ∨ r.status = "pending") ∧
    (∀ (jid now m rd : String),
      progOp (Op.update jid (failedUpdate now m)) ∧
        progOp (Op.update jid ⟨some "completed", some now, none, some rd⟩)) ∧
    (∀ (ops : List Op), (∀ op ∈ ops, progOp op) →
      ∀ r ∈ (runOps DB.empty ops).jobs,
        r.status = "pending" ∨ r.status = "completed" ∨ r.status = "failed") ∧
    (∀ (ops : List Op), (∀ op ∈ ops, progOp op) →
      ∀ (db : DB) (jid : String) (r : ScrapeJobRow),
        getScrapeJob db jid = some r → r.status ≠ "pending" →
        ∃ r', getScrapeJob (runOps db ops) jid = some r' ∧ r'.status ≠ "pending") := by
  refine ⟨?_, ?_, ?_, ?_⟩
  · intro db jd hprog r hr
    cases hf : getScrapeJob db jd.job_id with
    | some row =>
      rw [createScrapeJob_of_some db jd row hf] at hr
      exact Or.inl hr
    | none =>
      rw [createScrapeJob_of_none db jd hf] at hr
      rcases List.mem_append.1 hr with hold | hnew
      · exact Or.inl hold
      · have : r = newJobRow db jd := by simpa using hnew
        rw [this]
        exact Or.inr hprog
  · intro jid now m rd
    exact ⟨Or.inr rfl, Or.inl rfl⟩
  · intro ops hprog
    exact runOps_status_closed ops hprog DB.empty (by intro r hr; simp [DB.empty] at hr)
  · exact runOps_no_reenter

/-- C5 witness: failing a completed job on a one-row store keeps the row
out of `pending`. -/
theorem C5_witness :
    ∃ r', getScrapeJob
        (runOps ⟨[⟨1, "j5", "scrape-reddit", "completed", "t0", none, none, none⟩], 2, [], 1⟩
          [Op.update "j5" ⟨some "failed", some "t1", some "boom", none⟩])
        "j5"
      = some r' ∧ r'.status ≠ "pending" :=
  C5_status_transitions.2.2.2
    [Op.update "j5" ⟨some "failed", some "t1", some "boom", none⟩]
    (by
      intro op hop
      have : op = Op.update "j5" ⟨some "failed", some "t1", some "boom", none⟩ := by
        simpa using hop
      rw [this]
      exact Or.inr rfl)
    ⟨[⟨1, "j5", "scrape-reddit", "completed", "t0", none, none, none⟩], 2, [], 1⟩
    "j5" ⟨1, "j5", "scrape-reddit", "completed", "t0", none, none, none⟩
    rfl (by simp)

end Scraper
